import Mathlib

/-!
Verification of the fusion-kit messaging core against its specification.

The definitions below are a shallow embedding of the Python sources:
  * `src/fusion_kit/messaging/channels.py` — channel naming, subscription
    registry;
  * `src/fusion_kit/messaging/message.py` — message payloads and the
    `create_message` factory;
  * `src/fusion_kit/messaging/message_queue.py` — the Redis-backed broker
    (connection state machine, publish/subscribe, TTL store).

Python `uuid.UUID` values are modelled by their canonical string form,
which is always exactly 36 characters (32 hex digits and 4 dashes); that
is the only fact about `str(uuid)` that the channel-naming proofs use,
beyond `str` being injective on UUIDs (two UUIDs with the same canonical
string are the same UUID, so the string IS the identity here).
-/

namespace FusionKit

/-- A UUID, modelled by its canonical `str()` rendering, a 36-character
string (as produced by Python's `uuid.UUID.__str__`). -/
structure UUIDv where
  str : String
  len36 : str.length = 36

/-! ### Channel naming (`channels.py`, `ChannelManager`) -/

/-- `ChannelManager.get_agent_task_channel`: `f"agent:{agent_id}:tasks"`. -/
def get_agent_task_channel (agent_id : UUIDv) : String :=
  "agent:" ++ agent_id.str ++ ":tasks"

/-- `ChannelManager.get_agent_status_channel`: `f"agent:{agent_id}:status"`. -/
def get_agent_status_channel (agent_id : UUIDv) : String :=
  "agent:" ++ agent_id.str ++ ":status"

/-- `ChannelManager.get_agent_heartbeat_channel`: `f"agent:{agent_id}:heartbeat"`. -/
def get_agent_heartbeat_channel (agent_id : UUIDv) : String :=
  "agent:" ++ agent_id.str ++ ":heartbeat"

/-- `ChannelManager.get_workflow_channel`: `f"workflow:{workflow_id}:updates"`. -/
def get_workflow_channel (workflow_id : UUIDv) : String :=
  "workflow:" ++ workflow_id.str ++ ":updates"

/-- `ChannelManager.get_project_channel`: `f"project:{project_id}:events"`. -/
def get_project_channel (project_id : UUIDv) : String :=
  "project:" ++ project_id.str ++ ":events"

/-- `ChannelManager.get_broadcast_channel`: the fixed string `"broadcast:system"`. -/
def get_broadcast_channel : String := "broadcast:system"

/-- `ChannelManager.get_coordination_channel`: the fixed string
`"coordination:requests"`. -/
def get_coordination_channel : String := "coordination:requests"

/-- `ChannelManager.get_result_channel`: `f"results:{task_id}"`. -/
def get_result_channel (task_id : UUIDv) : String :=
  "results:" ++ task_id.str

/-- A concrete UUID (used by the concrete witnesses below). -/
def uuidNil : UUIDv :=
  ⟨"00000000-0000-0000-0000-000000000000", by decide⟩

/-! ### Message payloads and the factory (`message.py`) -/

/-- A Python value as it can appear in a message `content`/`metadata`
dict: strings, integers, booleans, `None`, lists and (insertion-ordered)
dicts. -/
inductive PyVal where
  | vstr : String → PyVal
  | vint : Int → PyVal
  | vbool : Bool → PyVal
  | vnone : PyVal
  | vlist : List PyVal → PyVal
  | vdict : List (String × PyVal) → PyVal

/-- A Python `Dict[str, Any]`, modelled as an insertion-ordered
association list (the representation used by CPython dicts). -/
abbrev Dict := List (String × PyVal)

/-- Insertion into a Python dict: an existing key keeps its position and
gets the new value; a new key is appended at the end. -/
def dictInsert (d : Dict) (k : String) (v : PyVal) : Dict :=
  if d.any (fun e => e.1 = k) then
    d.map (fun e => if e.1 = k then (k, v) else e)
  else
    d ++ [(k, v)]

/-- The dict-literal merge `{"k1": v1, "k2": v2, **content}`: start from
the literal entries, then insert each entry of `content` in order. -/
def dictMerge (base content : Dict) : Dict :=
  content.foldl (fun d e => dictInsert d e.1 e.2) base

/-- `MessageType` (`message.py` lines 15-27): the closed tag set of
inter-agent message types. -/
inductive MessageType where
  | task_assignment
  | status_update
  | collaboration_request
  | heartbeat
  | error_report
  | result_delivery
  | capability_query
  | capability_response
  | workflow_directive
  | custom
deriving DecidableEq

/-- `MessagePayload` (`message.py` lines 44-57): message type, content
dict, metadata dict (default empty), and an optional `correlation_id`
that defaults to `None`. -/
structure MessagePayload where
  message_type : MessageType
  content : Dict
  metadata : Dict
  correlation_id : Option String

set_option linter.unusedVariables false

/-- `create_message` (`message.py` lines 192-222): builds a
`MessagePayload` whose content starts with `sender_agent_id` (the
sender's id as a string) and `recipients` (the recipient ids as strings;
Python's `recipient_agent_ids or []` maps both `None` and `[]` to `[]`),
merged with the caller-supplied `content` dict. `metadata or {}` defaults
the metadata; `correlation_id` is left at its `None` default; the `topic`
argument is accepted but unused. -/
def create_message (message_type : MessageType) (sender_agent_id : UUIDv)
    (content : Dict) (topic : String)
    (recipient_agent_ids : Option (List UUIDv) := none)
    (metadata : Option Dict := none) : MessagePayload :=
  { message_type := message_type
    content := dictMerge
      [("sender_agent_id", PyVal.vstr sender_agent_id.str),
       ("recipients", PyVal.vlist
         (((recipient_agent_ids.getD []).map (fun i => PyVal.vstr i.str))))]
      content
    metadata := metadata.getD []
    correlation_id := none }

/-! ### Subscription registry (`channels.py`, `ChannelSubscriptionManager`)

The registry state `self.subscriptions : dict[str, List[str]]` is
modelled as an insertion-ordered association list from channel name to
subscriber list. CPython dict keys are unique; the definitions below act
uniformly on every entry with the given key, which agrees with the
Python code on all dict-representable (unique-key) states. -/

/-- The registry state: channel name ↦ list of subscriber ids. -/
abbrev Registry := List (String × List String)

namespace ChannelSubscriptionManager

/-- `channel in self.subscriptions`. -/
def hasChannel (subs : Registry) (channel : String) : Bool :=
  subs.any (fun e => e.1 = channel)

/-- `ChannelSubscriptionManager.subscribe` (lines 103-114): create the
channel entry with an empty list if missing, then append the subscriber
unless it is already present. -/
def subscribe (subs : Registry) (subscriber_id channel : String) : Registry :=
  (if hasChannel subs channel then subs else subs ++ [(channel, [])]).map (fun e =>
    if e.1 = channel ∧ subscriber_id ∉ e.2 then (e.1, e.2 ++ [subscriber_id]) else e)

/-- `ChannelSubscriptionManager.unsubscribe` (lines 116-127): if the
channel exists and holds the subscriber, remove the subscriber
(`list.remove` drops the first occurrence) and delete the channel key
entirely when its list becomes empty. -/
def unsubscribe (subs : Registry) (subscriber_id channel : String) : Registry :=
  subs.filterMap (fun e =>
    if e.1 = channel ∧ subscriber_id ∈ e.2 then
      let remaining := e.2.erase subscriber_id
      if remaining.isEmpty then none else some (e.1, remaining)
    else some e)

/-- `ChannelSubscriptionManager.get_subscribers` (lines 129-139):
`self.subscriptions.get(channel, [])`. -/
def get_subscribers (subs : Registry) (channel : String) : List String :=
  ((subs.find? (fun e => e.1 = channel)).map Prod.snd).getD []

/-- `ChannelSubscriptionManager.clear_subscriber` (lines 166-181): remove
the subscriber from every channel list containing it (first occurrence),
then delete every channel whose list became empty. -/
def clear_subscriber (subs : Registry) (subscriber_id : String) : Registry :=
  subs.filterMap (fun e =>
    if subscriber_id ∈ e.2 then
      let remaining := e.2.erase subscriber_id
      if remaining.isEmpty then none else some (e.1, remaining)
    else some e)

/-- The reachable-state invariant used for C7: every channel's subscriber
list is duplicate-free (`subscribe` never appends an id already present,
so this holds for every state built through the class API). -/
def NodupValues (subs : Registry) : Prop :=
  ∀ e ∈ subs, List.Nodup e.2

instance (subs : Registry) : Decidable (NodupValues subs) := by
  unfold NodupValues; infer_instance

/-- The invariant of C8: every channel key present in the registry maps
to a non-empty subscriber list. -/
def NonEmptyValues (subs : Registry) : Prop :=
  ∀ e ∈ subs, e.2 ≠ []

instance (subs : Registry) : Decidable (NonEmptyValues subs) := by
  unfold NonEmptyValues; infer_instance

end ChannelSubscriptionManager

/-! ### The broker (`message_queue.py`, `MessageQueue`)

The broker holds `self.redis_client : Optional[redis.Redis]`; `None` is
the disconnected state (the state of a fresh instance, and the state
every data operation tests with `if not self.redis_client`). The Redis
transport itself is external, so each operation takes an explicit
outcome describing what its single transport call would do (`ok` with
the transport's return value, or `fail` when the call raises), and
returns the effects it actually issued to the transport, so that
"fails fast without performing any part of the operation" is a statement
about an empty effect list. `json.dumps`/`json.loads` are Python
standard-library functions, modelled as explicit function arguments
(`loads` returns `none` when it would raise `JSONDecodeError`). -/

/-- The underlying transport client handle
(`redis.asyncio.from_url(self.redis_url, ...)`). -/
structure RedisClient where
  url : String
deriving DecidableEq

/-- Outcome of one transport call: the call returns a value, or raises. -/
inductive TransportResult (α : Type) where
  | ok : α → TransportResult α
  | fail : String → TransportResult α

/-- Errors a broker operation can surface: the
`RuntimeError("Not connected to Redis. Call connect() first.")` guard,
or a re-raised transport exception. -/
inductive MQError where
  | notConnected
  | transport : String → MQError
deriving DecidableEq

/-- A command the operation hands to the Redis transport. An operation
that fails fast issues none of these. -/
inductive RedisEffect where
  | publishCmd : String → String → RedisEffect
  | subscribeCmd : String → RedisEffect
  | psubscribeCmd : String → RedisEffect
  | setexCmd : String → Int → String → RedisEffect
  | getCmd : String → RedisEffect
  | delCmd : String → RedisEffect
  | pubsubChannelsCmd : RedisEffect
  | pubsubNumsubCmd : String → RedisEffect
deriving DecidableEq

/-- A raw message delivered by `pubsub.listen()`: its `type`, `channel`
and `data` fields. -/
structure RawMsg where
  type : String
  channel : String
  data : String

/-- Broker state (`MessageQueue.__init__`, lines 25-34): the Redis URL
and the optional client handle; a fresh instance is disconnected. -/
structure MessageQueue where
  redis_url : String
  redis_client : Option RedisClient
deriving DecidableEq

namespace MessageQueue

/-- How a `connect()` attempt can go: `redis.from_url` raises, the
handshake `ping()` raises, or both succeed. -/
inductive ConnectOutcome where
  | fromUrlRaises : String → ConnectOutcome
  | pingRaises : String → ConnectOutcome
  | ok : ConnectOutcome

/-- `MessageQueue.connect` (lines 36-54). The assignment
`self.redis_client = await redis.from_url(...)` happens *before* the
`ping()` handshake test, and the `except` clause only logs and re-raises
— it never resets `self.redis_client`. So when `from_url` itself raises
the state is unchanged, but when `ping` raises the client handle stays
assigned even though the error propagates. Returns (surfaced result,
state of the object afterwards). -/
def connect (mq : MessageQueue) (o : ConnectOutcome) :
    Except String Unit × MessageQueue :=
  match o with
  | .fromUrlRaises e => (.error e, mq)
  | .pingRaises e => (.error e, { mq with redis_client := some ⟨mq.redis_url⟩ })
  | .ok => (.ok (), { mq with redis_client := some ⟨mq.redis_url⟩ })

/-- `MessageQueue.publish` (lines 64-88): not-connected guard, then
`json.dumps(message)` and one `redis_client.publish(topic, message_json)`
call whose failure is logged and re-raised. -/
def publish (mq : MessageQueue) (dumps : Dict → String) (topic : String)
    (message : Dict) (transport : TransportResult Nat) :
    Except MQError Nat × List RedisEffect :=
  match mq.redis_client with
  | none => (.error .notConnected, [])
  | some _ =>
    match transport with
    | .ok n => (.ok n, [.publishCmd topic (dumps message)])
    | .fail e => (.error (.transport e), [.publishCmd topic (dumps message)])

/-- `MessageQueue.subscribe` (lines 90-121): not-connected guard, then a
dedicated pubsub session subscribed to `topic`; of the inbound raw
messages, those with `type == "message"` are decoded with `json.loads`
and yielded; a `JSONDecodeError` is logged and skipped, and iteration
continues. The yielded items are returned as a list (the generator's
output sequence). -/
def subscribe (mq : MessageQueue) (loads : String → Option Dict)
    (topic : String) (events : List RawMsg) :
    Except MQError (List Dict) × List RedisEffect :=
  match mq.redis_client with
  | none => (.error .notConnected, [])
  | some _ =>
    (.ok (events.filterMap fun m =>
        if m.type = "message" then loads m.data else none),
     [.subscribeCmd topic])

/-- `MessageQueue.psubscribe` (lines 123-154): as `subscribe` but for a
pattern; raw messages with `type == "pmessage"` are decoded and yielded
together with their concrete channel; decode failures are logged and
skipped. -/
def psubscribe (mq : MessageQueue) (loads : String → Option Dict)
    (pattern : String) (events : List RawMsg) :
    Except MQError (List (String × Dict)) × List RedisEffect :=
  match mq.redis_client with
  | none => (.error .notConnected, [])
  | some _ =>
    (.ok (events.filterMap fun m =>
        if m.type = "pmessage" then (loads m.data).map (fun d => (m.channel, d))
        else none),
     [.psubscribeCmd pattern])

/-- `MessageQueue.set_message_expiry` (lines 156-174): not-connected
guard, then one `setex` call; a failure is logged and re-raised. -/
def set_message_expiry (mq : MessageQueue) (dumps : Dict → String)
    (key : String) (value : Dict) (ttl_seconds : Int)
    (transport : TransportResult Unit) :
    Except MQError Unit × List RedisEffect :=
  match mq.redis_client with
  | none => (.error .notConnected, [])
  | some _ =>
    match transport with
    | .ok _ => (.ok (), [.setexCmd key ttl_seconds (dumps value)])
    | .fail e => (.error (.transport e), [.setexCmd key ttl_seconds (dumps value)])

/-- `MessageQueue.get_message` (lines 176-196): not-connected guard, then
one `get` call; a truthy value is parsed with `json.loads`; a falsy value
(missing key or empty string) yields `None`; *any* exception — transport
failure or decode failure — is caught, logged, and turned into a `None`
return. -/
def get_message (mq : MessageQueue) (loads : String → Option Dict)
    (key : String) (transport : TransportResult (Option String)) :
    Except MQError (Option Dict) × List RedisEffect :=
  match mq.redis_client with
  | none => (.error .notConnected, [])
  | some _ =>
    match transport with
    | .fail _ => (.ok none, [.getCmd key])
    | .ok none => (.ok none, [.getCmd key])
    | .ok (some v) =>
      if v = "" then (.ok none, [.getCmd key])
      else
        match loads v with
        | some d => (.ok (some d), [.getCmd key])
        | none => (.ok none, [.getCmd key])

/-- `MessageQueue.delete_message` (lines 198-216): not-connected guard,
then one `delete` call returning the number of removed keys; an
exception is caught, logged, and turned into a `False` return. -/
def delete_message (mq : MessageQueue) (key : String)
    (transport : TransportResult Nat) :
    Except MQError Bool × List RedisEffect :=
  match mq.redis_client with
  | none => (.error .notConnected, [])
  | some _ =>
    match transport with
    | .ok n => (.ok (decide (n > 0)), [.delCmd key])
    | .fail _ => (.ok false, [.delCmd key])

/-- `MessageQueue.list_channels` (lines 218-233): not-connected guard,
then one `pubsub_channels` call; an exception is caught and turned into
an empty list. -/
def list_channels (mq : MessageQueue)
    (transport : TransportResult (List String)) :
    Except MQError (List String) × List RedisEffect :=
  match mq.redis_client with
  | none => (.error .notConnected, [])
  | some _ =>
    match transport with
    | .ok chans => (.ok chans, [.pubsubChannelsCmd])
    | .fail _ => (.ok [], [.pubsubChannelsCmd])

/-- `MessageQueue.get_channel_subscribers` (lines 235-253): not-connected
guard, then one `pubsub_numsub` call returning per-channel counts
(`result.get(channel, 0)`); an exception is caught and turned into `0`. -/
def get_channel_subscribers (mq : MessageQueue) (channel : String)
    (transport : TransportResult (List (String × Nat))) :
    Except MQError Nat × List RedisEffect :=
  match mq.redis_client with
  | none => (.error .notConnected, [])
  | some _ =>
    match transport with
    | .ok counts =>
      (.ok (((counts.find? (fun e => e.1 = channel)).map Prod.snd).getD 0),
       [.pubsubNumsubCmd channel])
    | .fail _ => (.ok 0, [.pubsubNumsubCmd channel])

end MessageQueue

/-! ## Theorems -/

theorem UUIDv.ext_str : ∀ {a b : UUIDv}, a.str = b.str → a = b
  | ⟨_, _⟩, ⟨_, _⟩, rfl => rfl

/-! Helper lemmas: topic lengths (each naming function embeds a
36-character UUID string between fixed-length literals) and injectivity
of the `prefix ++ uuid ++ suffix` shape. -/

theorem length_agent_task (a : UUIDv) : (get_agent_task_channel a).length = 48 := by
  simp only [get_agent_task_channel, String.length_append, a.len36]
  decide

theorem length_agent_status (a : UUIDv) : (get_agent_status_channel a).length = 49 := by
  simp only [get_agent_status_channel, String.length_append, a.len36]
  decide

theorem length_agent_heartbeat (a : UUIDv) :
    (get_agent_heartbeat_channel a).length = 52 := by
  simp only [get_agent_heartbeat_channel, String.length_append, a.len36]
  decide

theorem length_workflow (a : UUIDv) : (get_workflow_channel a).length = 53 := by
  simp only [get_workflow_channel, String.length_append, a.len36]
  decide

theorem length_project (a : UUIDv) : (get_project_channel a).length = 51 := by
  simp only [get_project_channel, String.length_append, a.len36]
  decide

theorem length_result (a : UUIDv) : (get_result_channel a).length = 44 := by
  simp only [get_result_channel, String.length_append, a.len36]
  decide

theorem string_ne_of_length_ne {s t : String} (h : s.length ≠ t.length) : s ≠ t :=
  fun e => h (e ▸ rfl)

theorem wrap_inj {p s : String} {a b : UUIDv}
    (h : p ++ a.str ++ s = p ++ b.str ++ s) : a = b := by
  have hd : (p.data ++ a.str.data) ++ s.data = (p.data ++ b.str.data) ++ s.data := by
    have := congrArg String.data h
    simpa [String.data_append] using this
  have hmid : a.str.data = b.str.data :=
    List.append_cancel_left (List.append_cancel_right hd)
  have : a.str = b.str := by
    cases hstr : a.str with
    | mk da =>
      cases hstr' : b.str with
      | mk db =>
        have : da = db := by rw [hstr, hstr'] at hmid; exact hmid
        rw [this]
  exact UUIDv.ext_str this

theorem prefix_inj {p : String} {a b : UUIDv}
    (h : p ++ a.str = p ++ b.str) : a = b := by
  have hd : p.data ++ a.str.data = p.data ++ b.str.data := by
    have := congrArg String.data h
    simpa [String.data_append] using this
  have hmid : a.str.data = b.str.data := List.append_cancel_left hd
  refine UUIDv.ext_str ?_
  cases hstr : a.str with
  | mk da =>
    cases hstr' : b.str with
    | mk db =>
      have : da = db := by rw [hstr, hstr'] at hmid; exact hmid
      rw [this]

/-- **C1.** The channel-naming functions of `ChannelManager` are
deterministic (the same id always yields the same topic string), injective
within each entity kind (distinct agent/workflow/project/task ids yield
distinct topics), and collision-free across entity kinds: topics for agent
tasks, agent status, agent heartbeat, workflow updates, project events,
task results, the broadcast channel and the coordination channel never
coincide, even when the raw ids are equal. -/
theorem channel_naming_deterministic_injective :
    (∀ a b : UUIDv, a = b → get_agent_task_channel a = get_agent_task_channel b) ∧
    (∀ a b : UUIDv, a = b → get_agent_status_channel a = get_agent_status_channel b) ∧
    (∀ a b : UUIDv, a = b → get_agent_heartbeat_channel a = get_agent_heartbeat_channel b) ∧
    (∀ a b : UUIDv, a = b → get_workflow_channel a = get_workflow_channel b) ∧
    (∀ a b : UUIDv, a = b → get_project_channel a = get_project_channel b) ∧
    (∀ a b : UUIDv, a = b → get_result_channel a = get_result_channel b) ∧
    (∀ a b : UUIDv, get_agent_task_channel a = get_agent_task_channel b → a = b) ∧
    (∀ a b : UUIDv, get_agent_status_channel a = get_agent_status_channel b → a = b) ∧
    (∀ a b : UUIDv, get_agent_heartbeat_channel a = get_agent_heartbeat_channel b → a = b) ∧
    (∀ a b : UUIDv, get_workflow_channel a = get_workflow_channel b → a = b) ∧
    (∀ a b : UUIDv, get_project_channel a = get_project_channel b → a = b) ∧
    (∀ a b : UUIDv, get_result_channel a = get_result_channel b → a = b) ∧
    (∀ a b : UUIDv, get_agent_task_channel a ≠ get_agent_status_channel b) ∧
    (∀ a b : UUIDv, get_agent_task_channel a ≠ get_agent_heartbeat_channel b) ∧
    (∀ a b : UUIDv, get_agent_task_channel a ≠ get_workflow_channel b) ∧
    (∀ a b : UUIDv, get_agent_task_channel a ≠ get_project_channel b) ∧
    (∀ a b : UUIDv, get_agent_task_channel a ≠ get_result_channel b) ∧
    (∀ a : UUIDv, get_agent_task_channel a ≠ get_broadcast_channel) ∧
    (∀ a : UUIDv, get_agent_task_channel a ≠ get_coordination_channel) ∧
    (∀ a b : UUIDv, get_agent_status_channel a ≠ get_agent_heartbeat_channel b) ∧
    (∀ a b : UUIDv, get_agent_status_channel a ≠ get_workflow_channel b) ∧
    (∀ a b : UUIDv, get_agent_status_channel a ≠ get_project_channel b) ∧
    (∀ a b : UUIDv, get_agent_status_channel a ≠ get_result_channel b) ∧
    (∀ a : UUIDv, get_agent_status_channel a ≠ get_broadcast_channel) ∧
    (∀ a : UUIDv, get_agent_status_channel a ≠ get_coordination_channel) ∧
    (∀ a b : UUIDv, get_agent_heartbeat_channel a ≠ get_workflow_channel b) ∧
    (∀ a b : UUIDv, get_agent_heartbeat_channel a ≠ get_project_channel b) ∧
    (∀ a b : UUIDv, get_agent_heartbeat_channel a ≠ get_result_channel b) ∧
    (∀ a : UUIDv, get_agent_heartbeat_channel a ≠ get_broadcast_channel) ∧
    (∀ a : UUIDv, get_agent_heartbeat_channel a ≠ get_coordination_channel) ∧
    (∀ a b : UUIDv, get_workflow_channel a ≠ get_project_channel b) ∧
    (∀ a b : UUIDv, get_workflow_channel a ≠ get_result_channel b) ∧
    (∀ a : UUIDv, get_workflow_channel a ≠ get_broadcast_channel) ∧
    (∀ a : UUIDv, get_workflow_channel a ≠ get_coordination_channel) ∧
    (∀ a b : UUIDv, get_project_channel a ≠ get_result_channel b) ∧
    (∀ a : UUIDv, get_project_channel a ≠ get_broadcast_channel) ∧
    (∀ a : UUIDv, get_project_channel a ≠ get_coordination_channel) ∧
    (∀ a : UUIDv, get_result_channel a ≠ get_broadcast_channel) ∧
    (∀ a : UUIDv, get_result_channel a ≠ get_coordination_channel) ∧
    get_broadcast_channel ≠ get_coordination_channel := by
  refine ⟨fun a b h => h ▸ rfl, fun a b h => h ▸ rfl, fun a b h => h ▸ rfl,
    fun a b h => h ▸ rfl, fun a b h => h ▸ rfl, fun a b h => h ▸ rfl,
    fun a b h => wrap_inj h, fun a b h => wrap_inj h, fun a b h => wrap_inj h,
    fun a b h => wrap_inj h, fun a b h => wrap_inj h, fun a b h => prefix_inj h,
    ?_, ?_, ?_, ?_, ?_, ?_, ?_, ?_, ?_, ?_, ?_, ?_, ?_, ?_, ?_, ?_, ?_, ?_,
    ?_, ?_, ?_, ?_, ?_, ?_, ?_, ?_, ?_, ?_⟩
  all_goals
    first
      | exact fun a b => string_ne_of_length_ne (by
          simp only [length_agent_task, length_agent_status, length_agent_heartbeat,
            length_workflow, length_project, length_result]
          decide)
      | exact fun a => string_ne_of_length_ne (by
          simp only [length_agent_task, length_agent_status, length_agent_heartbeat,
            length_workflow, length_project, length_result]
          decide)
      | decide

/-- Witness for C1 at a concrete id: the determinism conjunct applied to
`uuidNil` with hypothesis `uuidNil = uuidNil` discharged by `rfl`. -/
theorem channel_naming_deterministic_injective_witness :
    get_agent_task_channel uuidNil = get_agent_task_channel uuidNil :=
  channel_naming_deterministic_injective.1 uuidNil uuidNil rfl

/-- **C2 counterexample.** At a concrete input, the payload built with
`recipient_agent_ids` absent is *equal* to the payload built with an
explicit empty recipient list — the two are not distinguishable, because
`recipient_agent_ids or []` collapses `None` and `[]` to the same
`recipients: []` entry. -/
theorem create_message_absent_vs_empty_counterexample :
    create_message MessageType.heartbeat uuidNil [] "agent:tasks" none none =
    create_message MessageType.heartbeat uuidNil [] "agent:tasks" (some []) none :=
  rfl

/-- **C2 amended.** For every message type, sender, content, topic and
metadata, `create_message` returns *identical* payloads for an absent
recipient list and for an explicit empty recipient list: the factory
payload does not preserve the broadcast/no-recipients distinction (only
the `Message` model's `recipient_agent_ids` field does). -/
theorem create_message_collapses_absent_and_empty
    (message_type : MessageType) (sender_agent_id : UUIDv) (content : Dict)
    (topic : String) (metadata : Option Dict) :
    create_message message_type sender_agent_id content topic none metadata =
    create_message message_type sender_agent_id content topic (some []) metadata :=
  rfl

/-- **C9.** `create_message` never assigns a `correlation_id`: for every
input, the returned payload's `correlation_id` is absent (`None`). -/
theorem create_message_correlation_id_none
    (message_type : MessageType) (sender_agent_id : UUIDv) (content : Dict)
    (topic : String) (recipient_agent_ids : Option (List UUIDv))
    (metadata : Option Dict) :
    (create_message message_type sender_agent_id content topic
      recipient_agent_ids metadata).correlation_id = none :=
  rfl

/-- **C10.** The payload `create_message` returns is independent of its
`topic` argument: two calls identical in every argument except `topic`
return equal payloads (the `MessagePayload` structure carries only
`message_type`, `content`, `metadata` and `correlation_id` — no topic
field — so the destination topic travels only as the separate argument
later passed to `publish`). -/
theorem create_message_independent_of_topic
    (message_type : MessageType) (sender_agent_id : UUIDv) (content : Dict)
    (topic₁ topic₂ : String) (recipient_agent_ids : Option (List UUIDv))
    (metadata : Option Dict) :
    create_message message_type sender_agent_id content topic₁
      recipient_agent_ids metadata =
    create_message message_type sender_agent_id content topic₂
      recipient_agent_ids metadata :=
  rfl

namespace ChannelSubscriptionManager

theorem list_map_id_of {α : Type} {l : List α} {f : α → α}
    (h : ∀ x ∈ l, f x = x) : l.map f = l := by
  induction l with
  | nil => rfl
  | cons x xs ih => simp_all

theorem find?_append_of_none {α : Type} {l₁ l₂ : List α} {p : α → Bool}
    (h : ∀ x ∈ l₁, p x = false) : List.find? p (l₁ ++ l₂) = List.find? p l₂ := by
  induction l₁ with
  | nil => rfl
  | cons x xs ih =>
    have hx := h x (List.mem_cons_self x xs)
    simp only [List.cons_append, List.find?_cons, hx]
    exact ih fun y hy => h y (List.mem_cons_of_mem x hy)

/-- After `subscribe`, every entry for the subscribed channel contains the
subscriber. -/
theorem mem_subscribe_channel {subs : Registry} {sid ch : String} :
    ∀ e ∈ subscribe subs sid ch, e.1 = ch → sid ∈ e.2 := by
  intro e he h1
  simp only [subscribe, List.mem_map] at he
  obtain ⟨e₀, _, rfl⟩ := he
  by_cases hc : e₀.1 = ch ∧ sid ∉ e₀.2
  · simp [if_pos hc]
  · rw [if_neg hc] at h1 ⊢
    push_neg at hc
    exact hc h1

/-- `subscribe` keeps the keys of the registry entries it maps over. -/
theorem hasChannel_subscribe (subs : Registry) (sid ch : String) :
    hasChannel (subscribe subs sid ch) ch = true := by
  have hf : ∀ e : String × List String,
      ((if e.1 = ch ∧ sid ∉ e.2 then (e.1, e.2 ++ [sid]) else e)).1 = e.1 := by
    intro e
    by_cases hc : e.1 = ch ∧ sid ∉ e.2 <;> simp [hc]
  by_cases h : hasChannel subs ch
  · rw [subscribe, if_pos h]
    simp only [hasChannel, List.any_map, List.any_eq_true, Function.comp] at h ⊢
    obtain ⟨e, he, hp⟩ := h
    exact ⟨e, he, by rw [hf]; exact hp⟩
  · rw [subscribe, if_neg h]
    simp only [hasChannel, List.any_map, List.any_eq_true, Function.comp]
    exact ⟨(ch, []), by simp, by rw [hf]; simp⟩

/-- First half of C7: `subscribe` is idempotent on every registry state. -/
theorem subscribe_subscribe (subs : Registry) (sid ch : String) :
    subscribe (subscribe subs sid ch) sid ch = subscribe subs sid ch := by
  conv_lhs => rw [subscribe]
  rw [if_pos (hasChannel_subscribe subs sid ch)]
  refine list_map_id_of fun e he => ?_
  rw [if_neg ?_]
  intro hc
  exact hc.2 (mem_subscribe_channel e he hc.1)

/-- `get_subscribers` after mapping a key-preserving function: the lookup
finds the same entry and returns its transformed value. -/
theorem get_subscribers_map (f : String × List String → String × List String)
    (hf : ∀ e, (f e).1 = e.1) (subs : Registry) (ch : String) :
    get_subscribers (subs.map f) ch =
      (((subs.find? (fun e => e.1 = ch)).map (fun e => (f e).2)).getD []) := by
  simp only [get_subscribers]
  induction subs with
  | nil => rfl
  | cons e rest ih =>
    by_cases hk : e.1 = ch
    · have h1 : List.find? (fun x => decide (x.1 = ch)) (f e :: List.map f rest) =
          some (f e) :=
        List.find?_cons_of_pos _ (by simp [hf, hk])
      have h2 : List.find? (fun x => decide (x.1 = ch)) (e :: rest) = some e :=
        List.find?_cons_of_pos _ (by simp [hk])
      rw [List.map_cons, h1, h2]
      simp
    · have h1 : List.find? (fun x => decide (x.1 = ch)) (f e :: List.map f rest) =
          List.find? (fun x => decide (x.1 = ch)) (List.map f rest) :=
        List.find?_cons_of_neg _ (by simp [hf, hk])
      have h2 : List.find? (fun x => decide (x.1 = ch)) (e :: rest) =
          List.find? (fun x => decide (x.1 = ch)) rest :=
        List.find?_cons_of_neg _ (by simp [hk])
      rw [List.map_cons, h1, h2]
      exact ih

/-- If a channel is present, `find?` locates its first entry. -/
theorem find?_isSome_of_hasChannel {subs : Registry} {ch : String}
    (h : hasChannel subs ch = true) :
    (subs.find? (fun e => e.1 = ch)).isSome := by
  rw [List.find?_isSome]
  simpa [hasChannel, List.any_eq_true] using h

/-- Second half of C7: after `subscribe`, the subscriber is counted
exactly once in that channel's subscriber list, provided the starting
lists are duplicate-free (as every state reachable through the class API
is). -/
theorem count_subscribe (subs : Registry) (sid ch : String)
    (h : NodupValues subs) :
    (get_subscribers (subscribe subs sid ch) ch).count sid = 1 := by
  have hf : ∀ e : String × List String,
      ((if e.1 = ch ∧ sid ∉ e.2 then (e.1, e.2 ++ [sid]) else e)).1 = e.1 := by
    intro e
    by_cases hc : e.1 = ch ∧ sid ∉ e.2 <;> simp [hc]
  by_cases hc : hasChannel subs ch
  · rw [subscribe, if_pos hc, get_subscribers_map _ hf]
    obtain ⟨e₀, hfind⟩ := Option.isSome_iff_exists.mp (find?_isSome_of_hasChannel hc)
    have he₀ : e₀ ∈ subs := List.mem_of_find?_eq_some hfind
    have hkey : e₀.1 = ch := by simpa using List.find?_some hfind
    rw [hfind]
    simp only [Option.map_some', Option.getD_some]
    by_cases hm : sid ∈ e₀.2
    · rw [if_neg (fun hcon => hcon.2 hm)]
      exact List.count_eq_one_of_mem (h e₀ he₀) hm
    · rw [if_pos ⟨hkey, hm⟩]
      simp only [List.count_append]
      rw [List.count_eq_zero_of_not_mem hm]
      simp
  · have hkeys : ∀ e ∈ subs, ¬ e.1 = ch := by
      intro e he hk
      exact hc (by simp only [hasChannel, List.any_eq_true]; exact ⟨e, he, by simp [hk]⟩)
    rw [subscribe, if_neg hc, get_subscribers_map _ hf,
      find?_append_of_none (fun e he => by simp [hkeys e he])]
    simp

theorem subscribe_preserves_nonempty (subs : Registry) (sid ch : String)
    (h : NonEmptyValues subs) : NonEmptyValues (subscribe subs sid ch) := by
  intro e he
  simp only [subscribe, List.mem_map] at he
  obtain ⟨e₀, he₀, rfl⟩ := he
  by_cases hc : e₀.1 = ch ∧ sid ∉ e₀.2
  · rw [if_pos hc]
    simp
  · rw [if_neg hc]
    by_cases hch : hasChannel subs ch
    · rw [if_pos hch] at he₀
      exact h e₀ he₀
    · rw [if_neg hch] at he₀
      rcases List.mem_append.mp he₀ with h1 | h1
      · exact h e₀ h1
      · simp only [List.mem_singleton] at h1
        subst h1
        exact absurd ⟨rfl, by simp⟩ hc

theorem unsubscribe_preserves_nonempty (subs : Registry) (sid ch : String)
    (h : NonEmptyValues subs) : NonEmptyValues (unsubscribe subs sid ch) := by
  intro e he
  simp only [unsubscribe, List.mem_filterMap] at he
  obtain ⟨e₀, he₀, hsome⟩ := he
  by_cases hc : e₀.1 = ch ∧ sid ∈ e₀.2
  · rw [if_pos hc] at hsome
    by_cases hemp : (e₀.2.erase sid).isEmpty
    · rw [if_pos hemp] at hsome
      exact absurd hsome (by simp)
    · rw [if_neg hemp] at hsome
      have he' : e = (e₀.1, e₀.2.erase sid) := (Option.some_inj.mp hsome).symm
      subst he'
      simpa [List.isEmpty_iff] using hemp
  · rw [if_neg hc] at hsome
    have he' : e = e₀ := (Option.some_inj.mp hsome).symm
    subst he'
    exact h _ he₀

theorem clear_subscriber_preserves_nonempty (subs : Registry) (sid : String)
    (h : NonEmptyValues subs) : NonEmptyValues (clear_subscriber subs sid) := by
  intro e he
  simp only [clear_subscriber, List.mem_filterMap] at he
  obtain ⟨e₀, he₀, hsome⟩ := he
  by_cases hc : sid ∈ e₀.2
  · rw [if_pos hc] at hsome
    by_cases hemp : (e₀.2.erase sid).isEmpty
    · rw [if_pos hemp] at hsome
      exact absurd hsome (by simp)
    · rw [if_neg hemp] at hsome
      have he' : e = (e₀.1, e₀.2.erase sid) := (Option.some_inj.mp hsome).symm
      subst he'
      simpa [List.isEmpty_iff] using hemp
  · rw [if_neg hc] at hsome
    have he' : e = e₀ := (Option.some_inj.mp hsome).symm
    subst he'
    exact h _ he₀

/-- **C7.** Registry `subscribe` is idempotent: for every subscriber id,
channel and starting registry state, subscribing twice leaves the
registry exactly as subscribing once does, and afterwards the subscriber
appears exactly once in that channel's subscriber list (stated for
states whose subscriber lists are duplicate-free, which every state
reachable through the `ChannelSubscriptionManager` API is, since
`subscribe` never appends an id that is already present). -/
theorem subscribe_idempotent (subs : Registry) (subscriber_id channel : String)
    (h : NodupValues subs) :
    subscribe (subscribe subs subscriber_id channel) subscriber_id channel =
      subscribe subs subscriber_id channel ∧
    (get_subscribers (subscribe subs subscriber_id channel) channel).count
      subscriber_id = 1 :=
  ⟨subscribe_subscribe subs subscriber_id channel,
   count_subscribe subs subscriber_id channel h⟩

/-- Witness for C7 at a concrete state: subscribing `"agent-001"` to
`"agent:tasks"` starting from the empty registry. -/
theorem subscribe_idempotent_witness :
    (subscribe (subscribe [] "agent-001" "agent:tasks") "agent-001" "agent:tasks" =
      subscribe [] "agent-001" "agent:tasks") ∧
    (get_subscribers (subscribe [] "agent-001" "agent:tasks") "agent:tasks").count
      "agent-001" = 1 :=
  subscribe_idempotent [] "agent-001" "agent:tasks"
    (fun e he => absurd he (List.not_mem_nil e))

/-- **C8.** Every registry operation preserves the invariant that each
channel key present in the index maps to a non-empty subscriber list:
`subscribe` only ever appends, `unsubscribe` deletes the channel key
entirely once its last subscriber is removed, and `clear_subscriber`
prunes every channel it leaves empty. -/
theorem registry_ops_preserve_nonempty (subs : Registry)
    (subscriber_id channel : String) (h : NonEmptyValues subs) :
    NonEmptyValues (subscribe subs subscriber_id channel) ∧
    NonEmptyValues (unsubscribe subs subscriber_id channel) ∧
    NonEmptyValues (clear_subscriber subs subscriber_id) :=
  ⟨subscribe_preserves_nonempty subs subscriber_id channel h,
   unsubscribe_preserves_nonempty subs subscriber_id channel h,
   clear_subscriber_preserves_nonempty subs subscriber_id h⟩

/-- Witness for C8 at a concrete state with one channel and one
subscriber (so `unsubscribe` and `clear_subscriber` actually prune). -/
theorem registry_ops_preserve_nonempty_witness :
    NonEmptyValues (subscribe [("agent:tasks", ["agent-001"])] "agent-001" "agent:tasks") ∧
    NonEmptyValues (unsubscribe [("agent:tasks", ["agent-001"])] "agent-001" "agent:tasks") ∧
    NonEmptyValues (clear_subscriber [("agent:tasks", ["agent-001"])] "agent-001") :=
  registry_ops_preserve_nonempty [("agent:tasks", ["agent-001"])] "agent-001"
    "agent:tasks" (by decide)

end ChannelSubscriptionManager

namespace MessageQueue

/-- **C4.** Every broker data operation invoked while the broker is
disconnected (`redis_client` is `None`) fails fast with the not-connected
error, issues no transport command at all (empty effect list, so no part
of the operation is performed), and does not auto-connect (no operation
ever writes `redis_client`). -/
theorem ops_fail_fast_when_disconnected (mq : MessageQueue)
    (h : mq.redis_client = none)
    (dumps : Dict → String) (loads : String → Option Dict)
    (topic pattern key channel : String) (message value : Dict)
    (ttl_seconds : Int) (events : List RawMsg)
    (t₁ : TransportResult Nat) (t₂ : TransportResult Unit)
    (t₃ : TransportResult (Option String)) (t₄ : TransportResult Nat)
    (t₅ : TransportResult (List String))
    (t₆ : TransportResult (List (String × Nat))) :
    publish mq dumps topic message t₁ = (.error .notConnected, []) ∧
    subscribe mq loads topic events = (.error .notConnected, []) ∧
    psubscribe mq loads pattern events = (.error .notConnected, []) ∧
    set_message_expiry mq dumps key value ttl_seconds t₂ =
      (.error .notConnected, []) ∧
    get_message mq loads key t₃ = (.error .notConnected, []) ∧
    delete_message mq key t₄ = (.error .notConnected, []) ∧
    list_channels mq t₅ = (.error .notConnected, []) ∧
    get_channel_subscribers mq channel t₆ = (.error .notConnected, []) := by
  refine ⟨?_, ?_, ?_, ?_, ?_, ?_, ?_, ?_⟩ <;>
    simp [publish, subscribe, psubscribe, set_message_expiry, get_message,
      delete_message, list_channels, get_channel_subscribers, h]

/-- Witness for C4 on a freshly constructed broker (never connected). -/
theorem ops_fail_fast_when_disconnected_witness :
    publish ⟨"redis://localhost:6379", none⟩ (fun _ => "null") "agent:tasks" []
      (.ok 0) = (.error .notConnected, []) ∧
    subscribe ⟨"redis://localhost:6379", none⟩ (fun _ => none) "agent:tasks" []
      = (.error .notConnected, []) ∧
    psubscribe ⟨"redis://localhost:6379", none⟩ (fun _ => none) "agent:*" []
      = (.error .notConnected, []) ∧
    set_message_expiry ⟨"redis://localhost:6379", none⟩ (fun _ => "null") "k" []
      3600 (.ok ()) = (.error .notConnected, []) ∧
    get_message ⟨"redis://localhost:6379", none⟩ (fun _ => none) "k" (.ok none)
      = (.error .notConnected, []) ∧
    delete_message ⟨"redis://localhost:6379", none⟩ "k" (.ok 0)
      = (.error .notConnected, []) ∧
    list_channels ⟨"redis://localhost:6379", none⟩ (.ok [])
      = (.error .notConnected, []) ∧
    get_channel_subscribers ⟨"redis://localhost:6379", none⟩ "c" (.ok [])
      = (.error .notConnected, []) :=
  ops_fail_fast_when_disconnected ⟨"redis://localhost:6379", none⟩ rfl
    (fun _ => "null") (fun _ => none) "agent:tasks" "agent:*" "k" "c" [] []
    3600 [] (.ok 0) (.ok ()) (.ok none) (.ok 0) (.ok []) (.ok [])

/-- **C3 counterexample.** On a fresh broker, `connect()` with a failing
handshake ping surfaces the error, but the client reference has already
been assigned, so the broker is *not* left disconnected: a subsequent
`publish` does not fail with the not-connected error (it proceeds on the
half-established connection). -/
theorem connect_ping_failure_counterexample :
    (connect ⟨"redis://localhost:6379", none⟩
        (.pingRaises "connection refused")).1 = .error "connection refused" ∧
    (connect ⟨"redis://localhost:6379", none⟩
        (.pingRaises "connection refused")).2.redis_client ≠ none ∧
    (publish (connect ⟨"redis://localhost:6379", none⟩
          (.pingRaises "connection refused")).2
        (fun _ => "null") "agent:tasks" [] (.ok 0)).1 ≠ .error .notConnected := by
  refine ⟨rfl, ?_, ?_⟩ <;> simp [connect, publish]

/-- **C3 amended.** If `connect()` fails while creating the transport
session (`redis.from_url` raises), the error is surfaced and the broker
state is unchanged — in particular a never-connected broker stays
disconnected and subsequent operations fail with the not-connected
error. But if the handshake `ping()` fails, the error is surfaced while
`self.redis_client` keeps the already-assigned handle, so subsequent
data operations do *not* fail with the not-connected error. -/
theorem connect_failure_behavior (mq : MessageQueue) (e : String)
    (dumps : Dict → String) (topic : String) (message : Dict)
    (t : TransportResult Nat) (h : mq.redis_client = none) :
    (connect mq (.fromUrlRaises e)).1 = .error e ∧
    (connect mq (.fromUrlRaises e)).2 = mq ∧
    (publish (connect mq (.fromUrlRaises e)).2 dumps topic message t).1 =
      .error .notConnected ∧
    (connect mq (.pingRaises e)).1 = .error e ∧
    (connect mq (.pingRaises e)).2.redis_client = some ⟨mq.redis_url⟩ ∧
    (publish (connect mq (.pingRaises e)).2 dumps topic message t).1 ≠
      .error .notConnected := by
  refine ⟨rfl, rfl, ?_, rfl, rfl, ?_⟩
  · simp [publish, connect, h]
  · cases t <;> simp [publish, connect]

/-- Witness for C3 (amended) on a fresh broker with a concrete failure. -/
theorem connect_failure_behavior_witness :
    (connect ⟨"redis://localhost:6379", none⟩
        (.fromUrlRaises "dns failure")).1 = .error "dns failure" ∧
    (connect ⟨"redis://localhost:6379", none⟩ (.fromUrlRaises "dns failure")).2 =
      (⟨"redis://localhost:6379", none⟩ : MessageQueue) ∧
    (publish (connect ⟨"redis://localhost:6379", none⟩
          (.fromUrlRaises "dns failure")).2
        (fun _ => "null") "agent:tasks" [] (.ok 0)).1 = .error .notConnected ∧
    (connect ⟨"redis://localhost:6379", none⟩
        (.pingRaises "dns failure")).1 = .error "dns failure" ∧
    (connect ⟨"redis://localhost:6379", none⟩
        (.pingRaises "dns failure")).2.redis_client =
      some ⟨"redis://localhost:6379"⟩ ∧
    (publish (connect ⟨"redis://localhost:6379", none⟩
          (.pingRaises "dns failure")).2
        (fun _ => "null") "agent:tasks" [] (.ok 0)).1 ≠ .error .notConnected :=
  connect_failure_behavior ⟨"redis://localhost:6379", none⟩ "dns failure"
    (fun _ => "null") "agent:tasks" [] (.ok 0) rfl

/-- **C5 counterexample.** On a connected broker with a failing
transport, `get_message` returns a successful `None` and
`delete_message` returns a successful `False`: the failure is swallowed,
not surfaced as an error (only `set_message_expiry` re-raises). -/
theorem ttl_store_swallow_counterexample :
    (get_message ⟨"redis://localhost:6379", some ⟨"redis://localhost:6379"⟩⟩
        (fun _ => none) "k" (.fail "connection reset")).1 = .ok none ∧
    (delete_message ⟨"redis://localhost:6379", some ⟨"redis://localhost:6379"⟩⟩
        "k" (.fail "connection reset")).1 = .ok false :=
  ⟨rfl, rfl⟩

/-- **C5 amended.** On a connected broker, a failing TTL-store transport
call is never retried (each operation issues exactly one transport
command), but only `set_message_expiry` surfaces the failure as an
error; `get_message` catches it and returns `None` (indistinguishable
from "not found") and `delete_message` catches it and returns `False`
(indistinguishable from "no such key"). -/
theorem ttl_store_failure_behavior (mq : MessageQueue) (c : RedisClient)
    (h : mq.redis_client = some c) (dumps : Dict → String)
    (loads : String → Option Dict) (key : String) (value : Dict)
    (ttl_seconds : Int) (e : String) :
    set_message_expiry mq dumps key value ttl_seconds (.fail e) =
      (.error (.transport e), [.setexCmd key ttl_seconds (dumps value)]) ∧
    get_message mq loads key (.fail e) = (.ok none, [.getCmd key]) ∧
    delete_message mq key (.fail e) = (.ok false, [.delCmd key]) := by
  refine ⟨?_, ?_, ?_⟩ <;>
    simp [set_message_expiry, get_message, delete_message, h]

/-- Witness for C5 (amended) on a concrete connected broker. -/
theorem ttl_store_failure_behavior_witness :
    set_message_expiry ⟨"redis://localhost:6379", some ⟨"redis://localhost:6379"⟩⟩
      (fun _ => "null") "k" [] 3600 (.fail "connection reset") =
      (.error (.transport "connection reset"), [.setexCmd "k" 3600 "null"]) ∧
    get_message ⟨"redis://localhost:6379", some ⟨"redis://localhost:6379"⟩⟩
      (fun _ => none) "k" (.fail "connection reset") = (.ok none, [.getCmd "k"]) ∧
    delete_message ⟨"redis://localhost:6379", some ⟨"redis://localhost:6379"⟩⟩
      "k" (.fail "connection reset") = (.ok false, [.delCmd "k"]) :=
  ttl_store_failure_behavior
    ⟨"redis://localhost:6379", some ⟨"redis://localhost:6379"⟩⟩
    ⟨"redis://localhost:6379"⟩ rfl (fun _ => "null") (fun _ => none) "k" [] 3600
    "connection reset"

/-- **C6.** On a connected broker's subscription stream, a raw message
whose payload fails to decode is skipped and the stream continues:
delivering one malformed then one well-formed message on the subscribed
topic yields exactly one decoded item; prepending a malformed message to
any event sequence never changes (in particular never terminates) the
yielded sequence; and the same holds for pattern subscriptions, which
yield the concrete channel alongside the decoded payload. -/
theorem subscribe_skips_malformed (mq : MessageQueue) (c : RedisClient)
    (h : mq.redis_client = some c) (loads : String → Option Dict)
    (topic pattern : String) (bad good : RawMsg) (d : Dict)
    (hbt : bad.type = "message") (hgt : good.type = "message")
    (hbad : loads bad.data = none) (hgood : loads good.data = some d) :
    (subscribe mq loads topic [bad, good]).1 = .ok [d] ∧
    (∀ events : List RawMsg,
      (subscribe mq loads topic (bad :: events)).1 =
        (subscribe mq loads topic events).1) ∧
    (∀ pbad pgood : RawMsg, ∀ d' : Dict,
      pbad.type = "pmessage" → pgood.type = "pmessage" →
      loads pbad.data = none → loads pgood.data = some d' →
      (psubscribe mq loads pattern [pbad, pgood]).1 =
        .ok [(pgood.channel, d')]) := by
  refine ⟨?_, ?_, ?_⟩
  · simp [subscribe, h, hbt, hgt, hbad, hgood]
  · intro events
    simp [subscribe, h, List.filterMap_cons, hbt, hbad]
  · intro pbad pgood d' hpbt hpgt hpbad hpgood
    simp [psubscribe, h, hpbt, hpgt, hpbad, hpgood]

/-- Witness for C6 with a concrete decoder on concrete raw messages. -/
theorem subscribe_skips_malformed_witness :
    (subscribe ⟨"redis://localhost:6379", some ⟨"redis://localhost:6379"⟩⟩
        (fun s => if s = "null" then some [] else none) "agent:tasks"
        [⟨"message", "agent:tasks", "oops"⟩, ⟨"message", "agent:tasks", "null"⟩]).1 =
      .ok [[]] ∧
    (∀ events : List RawMsg,
      (subscribe ⟨"redis://localhost:6379", some ⟨"redis://localhost:6379"⟩⟩
          (fun s => if s = "null" then some [] else none) "agent:tasks"
          (⟨"message", "agent:tasks", "oops"⟩ :: events)).1 =
        (subscribe ⟨"redis://localhost:6379", some ⟨"redis://localhost:6379"⟩⟩
          (fun s => if s = "null" then some [] else none) "agent:tasks" events).1) ∧
    (∀ pbad pgood : RawMsg, ∀ d' : Dict,
      pbad.type = "pmessage" → pgood.type = "pmessage" →
      (fun s => if s = "null" then some ([] : Dict) else none) pbad.data = none →
      (fun s => if s = "null" then some ([] : Dict) else none) pgood.data = some d' →
      (psubscribe ⟨"redis://localhost:6379", some ⟨"redis://localhost:6379"⟩⟩
          (fun s => if s = "null" then some [] else none) "agent:*"
          [pbad, pgood]).1 = .ok [(pgood.channel, d')]) :=
  subscribe_skips_malformed
    ⟨"redis://localhost:6379", some ⟨"redis://localhost:6379"⟩⟩
    ⟨"redis://localhost:6379"⟩ rfl (fun s => if s = "null" then some [] else none)
    "agent:tasks" "agent:*" ⟨"message", "agent:tasks", "oops"⟩
    ⟨"message", "agent:tasks", "null"⟩ [] rfl rfl rfl rfl

end MessageQueue

end FusionKit
